import Mathlib

/-!
Verification development for the SIYI ZR30 SDK (Python source under
`siyi_sdk/`): a shallow embedding of the message codec
(`siyi_message.py`), the byte/integer helpers (`utils.py`) and the
session / buffer-reassembly / controller logic (`siyi_sdk.py`),
together with theorems settling the specification's claims.

Modelling conventions:
* Python hexadecimal strings (always produced by `bytes.hex()`,
  `format(n, 'x')` or concatenation of such) are modelled as lists of
  nibble values (`List Nat`, each element `< 16`); one Python character
  corresponds to one list element, so Python slicing `s[a:b]` becomes
  `(s.drop a).take (b - a)` and string concatenation becomes `++`.
* Python `int`s are `Int` (arbitrary precision, so no overflow
  modelling is needed); Python floats that only ever hold exact decimal
  telemetry values are modelled as `Rat`.
* The external checksum collaborator `crc16_str_swap` (package
  `crc16_python`, out of scope per the spec, a deterministic black box
  returning a 2-byte value) is a function parameter `crcFn : Hex → Hex`
  assumed/instantiated to return 4 nibbles; the `crc is None` failure
  branch of `encodeMsg` is consequently never taken.
-/

namespace Siyi

/-- A Python hex string, one nibble value (0..15) per character. -/
abbrev Hex := List Nat

/-- Value of a hex string: models Python `int("0x" + s, base=16)` on the
always-valid hex strings coming from `bytes.hex()`. -/
def hexNat (s : Hex) : Nat := s.foldl (fun a d => 16 * a + d) 0

/-- Models Python `int(s, 16)` where the failure (exception) cases are
visible: `int` raises on an empty string or a non-hex character. -/
def pyHexNatOpt (s : Hex) : Option Nat :=
  if s = [] ∨ s.any (fun d => 16 ≤ d) then none else some (hexNat s)

/-- Python slice `s[a:b]` (for `0 ≤ a ≤ b`). -/
def pySlice (s : Hex) (a b : Nat) : Hex := (s.drop a).take (b - a)

/-- Minimal-length lowercase hex digits of `n`, models Python
`format(n, 'x')` / `hex(n)[2:]`.  Structural recursion over a fuel
argument (`fuel > n` always holds at the call site in `natToHex`), so
that the kernel can evaluate it. -/
def natToHexAux : Nat → Nat → Hex
  | 0, _ => []
  | fuel + 1, n => if n < 16 then [n] else natToHexAux fuel (n / 16) ++ [n % 16]

/-- Python `format(n, 'x')` as a nibble list (`format(0,'x') = "0"`). -/
def natToHex (n : Nat) : Hex := natToHexAux (n + 1) n

/-- `utils.toHex`: two's-complement fixed-width hexadecimal encoding,
`format((intval + (1 << nbits)) % (1 << nbits), 'x')` followed by the
source's explicit zero-padding cases for widths 8 and 16. -/
def toHex (intval : Int) (nbits : Nat) : Hex :=
  let h := natToHex ((intval + (2 : Int) ^ nbits) % (2 : Int) ^ nbits).toNat
  if h.length = 1 ∧ nbits = 8 then 0 :: h
  else if h.length = 1 ∧ nbits = 16 then 0 :: 0 :: 0 :: h
  else if h.length = 2 ∧ nbits = 16 then 0 :: 0 :: h
  else if h.length = 3 ∧ nbits = 16 then 0 :: h
  else h

/-- `utils.toInt`: `int(hexval, 16)` then two's-complement sign
adjustment at bit 15 (`bits` is hard-wired to 16 in the source). -/
def toInt (hexval : Hex) : Int :=
  let bits := 16
  let val := hexNat hexval
  if Nat.testBit val (bits - 1) then (val : Int) - 2 ^ bits else (val : Int)

/-- `toInt` on the slices parsers feed it, with the exception cases of
`int(hexval, 16)` (empty / invalid string) made visible. -/
def pyToIntOpt (s : Hex) : Option Int :=
  (pyHexNatOpt s).map fun val =>
    if Nat.testBit val 15 then (val : Int) - 2 ^ 16 else (val : Int)

/-- Python `int(x)` on a float: truncation toward zero. -/
def pyInt (x : Rat) : Int := if 0 ≤ x then ⌊x⌋ else ⌈x⌉

/-!
## Frame codec (`siyi_message.py`, class `SIYIMESSAGE`)

`SIYIMESSAGE.incrementSEQ` is always invoked as
`self.incrementSEQ(self._seq)`, so it is modelled as a function of the
current counter value returning the new counter value together with the
byte-swapped sequence string it builds.  The `isinstance(val, int)`
guard is unrepresentable (the argument is typed `Int` here) and the
`val < 0` branch returns `"0000"` without touching `self._seq`.
-/

/-- `SIYIMESSAGE.incrementSEQ`, faithful to the source including its
quirks: a value above 65535 resets the counter to 0; a negative value
leaves the counter untouched; otherwise the counter becomes `val + 1`
and the returned string is built from `hex(seq)` with explicit padding
for digit-lengths 3 and 1 (the source's length-2 branch assigns the
dead variable `seq_str`, and its final `else` assigns the dead variable
`seq`, so neither changes `seq_hex`), then the last two and first two
characters are concatenated in swapped order. -/
def incrementSEQ (val : Int) : Int × Hex :=
  if 65535 < val then (0, [0, 0, 0, 0])
  else if val < 0 then (val, [0, 0, 0, 0])
  else
    let seq := val + 1
    let seq_hex := natToHex seq.toNat
    let seq_hex :=
      if seq_hex.length = 3 then 0 :: seq_hex
      else if seq_hex.length = 1 then 0 :: 0 :: 0 :: seq_hex
      else seq_hex
    (seq, seq_hex.drop (seq_hex.length - 2) ++ seq_hex.take 2)

/-- `SIYIMESSAGE.computeDataLen`: pads odd-length data with a leading
`'0'`, takes the byte count `len(data) / 2`, formats it in hex with the
source's padding cases (any formatted length other than 1, 2 or 3 is
replaced wholesale by `"0000"`), and swaps the two bytes. -/
def computeDataLen (data : Hex) : Hex :=
  let data := if data.length % 2 ≠ 0 then 0 :: data else data
  let L := data.length / 2
  let len_hex := natToHex L
  let len_hex :=
    if len_hex.length = 3 then 0 :: len_hex
    else if len_hex.length = 1 then 0 :: 0 :: 0 :: len_hex
    else if len_hex.length = 2 then 0 :: 0 :: len_hex
    else [0, 0, 0, 0]
  len_hex.drop (len_hex.length - 2) ++ len_hex.take 2

/-- `SIYIMESSAGE.encodeMsg`, parametrised by the external checksum
collaborator and the current sequence counter; returns the encoded
message and the new counter.  The source first assembles
`HEADER + ctr + data_len + seq + cmd_id + data` and then immediately
reassigns `msg_front` with the sequence field replaced by the literal
`"0000"`, so the frame that is checksummed and returned always carries
sequence `"0000"`; with a total `crcFn` the `crc is None` failure
branch (returning `""`) is never taken. -/
def encodeMsg (crcFn : Hex → Hex) (seqCtr : Int) (data cmd_id : Hex) :
    Hex × Int :=
  let seqRes := incrementSEQ seqCtr
  let data_len := computeDataLen data
  let msg_front := [5, 5, 6, 6] ++ [0, 1] ++ data_len ++ [0, 0, 0, 0] ++
    cmd_id ++ data
  (msg_front ++ crcFn msg_front, seqRes.1)

/-- `SIYIMESSAGE.decodeMsg`: minimum-length check (10 bytes = 20 hex
characters), byte-swapped extraction of the length field, checksum
comparison against `crc16_str_swap` of everything but the last two
bytes, then byte-swapped sequence, command id and payload slice.  The
source's `isinstance` guard is unrepresentable here; returning `None`
is `none`. -/
def decodeMsg (crcFn : Hex → Hex) (msg : Hex) :
    Option (Hex × Nat × Hex × Nat) :=
  if msg.length < 20 then none
  else
    let low_b := pySlice msg 6 8
    let high_b := pySlice msg 8 10
    let data_len := hexNat (high_b ++ low_b)
    let char_len := data_len * 2
    let msg_crc := msg.drop (msg.length - 4)
    let payload := msg.take (msg.length - 4)
    if crcFn payload ≠ msg_crc then none
    else
      let seq := hexNat (pySlice msg 12 14 ++ pySlice msg 10 12)
      let cmd_id := pySlice msg 14 16
      let data := if 0 < data_len then (msg.drop 16).take char_len else []
      some (data, data_len, cmd_id, seq)

/-- A concrete stand-in instantiation for the black-box checksum
collaborator (any 4-nibble-valued function will do for witnesses and
counterexamples). -/
def crcConst : Hex → Hex := fun _ => [1, 2, 3, 4]

/-- Clamping and payload assembly of `SIYIMESSAGE.absoluteZoomMsg`.
The source's four guards are sequential assignments to `zoom_level`:
the two `frac_zoom_level` range guards also assign `zoom_level` (not
`frac_zoom_level`), and the payload is built from the final
`zoom_level` and the *unmodified* `frac_zoom_level`. -/
def absoluteZoomData (zoom_level frac_zoom_level : Int) : Hex :=
  let z := if 30 < zoom_level then 30 else zoom_level
  let z := if z < 1 then 1 else z
  let z := if 9 < frac_zoom_level then 9 else z
  let z := if frac_zoom_level < 0 then 0 else z
  toHex z 8 ++ toHex frac_zoom_level 8

/-- `SIYIMESSAGE.absoluteZoomMsg` (command id `"0f"`). -/
def absoluteZoomMsg (crcFn : Hex → Hex) (seqCtr : Int)
    (zoom_level frac_zoom_level : Int) : Hex × Int :=
  encodeMsg crcFn seqCtr (absoluteZoomData zoom_level frac_zoom_level) [0, 15]

/-- Clamping and payload assembly of `SIYIMESSAGE.gimbalSpeedMsg`:
both speeds are clamped into [-100, 100] and encoded as 8-bit
two's-complement hex. -/
def gimbalSpeedData (yaw_speed pitch_speed : Int) : Hex :=
  let y := if 100 < yaw_speed then 100 else yaw_speed
  let y := if y < -100 then -100 else y
  let p := if 100 < pitch_speed then 100 else pitch_speed
  let p := if p < -100 then -100 else p
  toHex y 8 ++ toHex p 8

/-- `SIYIMESSAGE.gimbalSpeedMsg` (command id `"07"`). -/
def gimbalSpeedMsg (crcFn : Hex → Hex) (seqCtr : Int)
    (yaw_speed pitch_speed : Int) : Hex × Int :=
  encodeMsg crcFn seqCtr (gimbalSpeedData yaw_speed pitch_speed) [0, 7]

/-!
## Buffer reassembly (`SIYISDK.bufferCallback`)

The while-loop of `bufferCallback` over the hex string of one received
datagram: while at least `MINIMUM_DATA_LENGTH = 20` characters remain,
a leading-header mismatch drops one character (`buff_str = buff_str[1:]`)
and retries; with a header, the declared length is read and, if the
buffer holds fewer than `20 + 2*data_len` characters, the buffer is set
to `""` and the loop breaks; otherwise one packet is sliced off and
handed to `decodeMsg`/the parser dispatch, and scanning continues.

`scanPacketsGo` is the loop with a structural fuel argument so the
kernel can evaluate it; every iteration strictly shortens the buffer,
so with fuel `buff.length + 1` (as in `scanPackets`) the fuel-0 case is
never reached.  It returns the list of packet slices handed to
`decodeMsg`, in order, together with the final buffer contents.
-/

def scanPacketsGo : Nat → Hex → List Hex × Hex
  | 0, buff => ([], buff)
  | fuel + 1, buff =>
    if buff.length < 20 then ([], buff)
    else if pySlice buff 0 4 = [5, 5, 6, 6] then
      let data_len := hexNat (pySlice buff 8 10 ++ pySlice buff 6 8)
      let char_len := data_len * 2
      if buff.length < 20 + char_len then ([], [])
      else
        let packet := buff.take (20 + char_len)
        let rest := scanPacketsGo fuel (buff.drop (20 + char_len))
        (packet :: rest.1, rest.2)
    else scanPacketsGo fuel (buff.drop 1)

/-- The packets sliced out of one datagram's buffer by
`SIYISDK.bufferCallback`, with the final state of `buff_str`. -/
def scanPackets (buff : Hex) : List Hex × Hex :=
  scanPacketsGo (buff.length + 1) buff

/-!
## Parser dispatch (`SIYISDK.bufferCallback` lines 318–351 and the
`parse*Msg` methods)

Each implemented parser wraps its whole body in `try/except` and
returns `True`/`False`; the only operations in those bodies that can
raise are the `int(..., 16)` / `toInt` conversions (string slicing is
total in Python, and assignments, float division and logging never
raise), so each parser is modelled by the chain of its conversions
(`pyHexNatOpt` / `pyToIntOpt`), collapsing to `ok true` on success and
`ok false` when a conversion raises and the `except` branch runs.  The
writes to the cached telemetry records are elided here; only the
outcome (returned Bool, or an escaping exception) is modelled.
`parsePhotoAndRecordMsg` and `parseRequestPresentWorkingModeMsg`
execute `raise NotImplemented` outside any `try`, modelled as
`raised`. -/

inductive ParseOutcome where
  /-- The parser returned normally with this Bool. -/
  | ok (b : Bool)
  /-- The frame was dropped with only a warning (unknown command id). -/
  | ignored
  /-- An exception escaped the parser (and hence `bufferCallback`). -/
  | raised
  deriving DecidableEq

/-- The `try/except` collapse shared by every implemented parser: if
the chain of conversions in the `try` body succeeds the parser returns
`True`, if one of them raises the `except` branch returns `False`. -/
def tryOk {α : Type} (o : Option α) : ParseOutcome :=
  match o with
  | some _ => .ok true
  | none => .ok false

/-- `SIYISDK.parseRequestFirmwareMsg`: only slicing/assignment in the
`try` body, never raises. -/
def parseRequestFirmwareMsg (_msg : Hex) : ParseOutcome := .ok true

/-- `SIYISDK.parseRequestHardwareIDMsg`: never raises. -/
def parseRequestHardwareIDMsg (_msg : Hex) : ParseOutcome := .ok true

/-- `SIYISDK.parseRequestGimbalAttitudeMsg`: six `toInt` calls on
byte-swapped 2-byte slices. -/
def parseRequestGimbalAttitudeMsg (msg : Hex) : ParseOutcome :=
  tryOk (do
    let _ ← pyToIntOpt (pySlice msg 2 4 ++ pySlice msg 0 2)
    let _ ← pyToIntOpt (pySlice msg 6 8 ++ pySlice msg 4 6)
    let _ ← pyToIntOpt (pySlice msg 10 12 ++ pySlice msg 8 10)
    let _ ← pyToIntOpt (pySlice msg 14 16 ++ pySlice msg 12 14)
    let _ ← pyToIntOpt (pySlice msg 18 20 ++ pySlice msg 16 18)
    let _ ← pyToIntOpt (pySlice msg 22 24 ++ pySlice msg 20 22)
    pure ())

/-- `SIYISDK.parseGimbalConfigurationInfoMsg`: three `int("0x"+...)`
conversions. -/
def parseGimbalConfigurationInfoMsg (msg : Hex) : ParseOutcome :=
  tryOk (do
    let _ ← pyHexNatOpt (pySlice msg 6 8)
    let _ ← pyHexNatOpt (pySlice msg 8 10)
    let _ ← pyHexNatOpt (pySlice msg 10 12)
    pure ())

/-- `SIYISDK.parseAutoFocusMsg`: `int("0x" + msg, 16)`. -/
def parseAutoFocusMsg (msg : Hex) : ParseOutcome :=
  tryOk (pyHexNatOpt msg)

/-- `SIYISDK.parseZoomMsg`: `int('0x' + msg[2:4] + msg[0:2], 16)`. -/
def parseZoomMsg (msg : Hex) : ParseOutcome :=
  tryOk (pyHexNatOpt (pySlice msg 2 4 ++ pySlice msg 0 2))

/-- `SIYISDK.parseAbsoluteZoomMsg`: `int("0x" + msg, 16)`. -/
def parseAbsoluteZoomMsg (msg : Hex) : ParseOutcome :=
  tryOk (pyHexNatOpt msg)

/-- `SIYISDK.parseRequestMaxZoomvalueMsg`: the same byte-swapped
conversion, performed twice. -/
def parseRequestMaxZoomvalueMsg (msg : Hex) : ParseOutcome :=
  tryOk (do
    let _ ← pyHexNatOpt (pySlice msg 2 4 ++ pySlice msg 0 2)
    let _ ← pyHexNatOpt (pySlice msg 2 4 ++ pySlice msg 0 2)
    pure ())

/-- `SIYISDK.parseManualFocusMsg`: `int("0x" + msg, 16)`. -/
def parseManualFocusMsg (msg : Hex) : ParseOutcome :=
  tryOk (pyHexNatOpt msg)

/-- `SIYISDK.parseGimbalSpeedMsg`: `int("0x" + msg, 16)`. -/
def parseGimbalSpeedMsg (msg : Hex) : ParseOutcome :=
  tryOk (pyHexNatOpt msg)

/-- `SIYISDK.parseGimbalCenterMsg`: `int("0x" + msg, 16)`. -/
def parseGimbalCenterMsg (msg : Hex) : ParseOutcome :=
  tryOk (pyHexNatOpt msg)

/-- `SIYISDK.parseFunctionFeedbackMsg`: `int("0x" + msg, 16)`. -/
def parseFunctionFeedbackMsg (msg : Hex) : ParseOutcome :=
  tryOk (pyHexNatOpt msg)

/-- `SIYISDK.parsePhotoAndRecordMsg`: `raise NotImplemented` outside
any `try` — the exception always escapes. -/
def parsePhotoAndRecordMsg (_msg : Hex) : ParseOutcome := .raised

/-- `SIYISDK.parseRequestPresentWorkingModeMsg`: `raise NotImplemented`
outside any `try` — the exception always escapes. -/
def parseRequestPresentWorkingModeMsg (_msg : Hex) : ParseOutcome := .raised

/-- `SIYISDK.parseRequestCurrentZoomValueMsg`: two `int("0x"+...)`
conversions. -/
def parseRequestCurrentZoomValueMsg (msg : Hex) : ParseOutcome :=
  tryOk (do
    let _ ← pyHexNatOpt (pySlice msg 0 2)
    let _ ← pyHexNatOpt (pySlice msg 2 4)
    pure ())

/-- `SIYISDK.parseSendControlAngleToGimbalMsg`: two `toInt` calls
inside `try/except` (the dispatcher passes `cmd_id` where `seq` is
expected, a harmless quirk since the `seq` argument is only stored). -/
def parseSendControlAngleToGimbalMsg (msg : Hex) : ParseOutcome :=
  tryOk (do
    let _ ← pyToIntOpt (pySlice msg 2 4 ++ pySlice msg 0 2)
    let _ ← pyToIntOpt (pySlice msg 6 8 ++ pySlice msg 4 6)
    pure ())

/-- The `if cmd_id == COMMAND...` dispatch chain of
`SIYISDK.bufferCallback`, in source order; an unrecognized command id
is logged and the frame dropped. -/
def dispatchCmd (cmd_id data : Hex) : ParseOutcome :=
  if cmd_id = [0, 15] then parseAbsoluteZoomMsg data
  else if cmd_id = [0, 4] then parseAutoFocusMsg data
  else if cmd_id = [0, 8] then parseGimbalCenterMsg data
  else if cmd_id = [0, 11] then parseFunctionFeedbackMsg data
  else if cmd_id = [0, 7] then parseGimbalSpeedMsg data
  else if cmd_id = [0, 6] then parseManualFocusMsg data
  else if cmd_id = [0, 5] then parseZoomMsg data
  else if cmd_id = [0, 12] then parsePhotoAndRecordMsg data
  else if cmd_id = [0, 13] then parseRequestGimbalAttitudeMsg data
  else if cmd_id = [0, 1] then parseRequestFirmwareMsg data
  else if cmd_id = [0, 2] then parseRequestHardwareIDMsg data
  else if cmd_id = [1, 9] then parseRequestPresentWorkingModeMsg data
  else if cmd_id = [0, 10] then parseGimbalConfigurationInfoMsg data
  else if cmd_id = [1, 6] then parseRequestMaxZoomvalueMsg data
  else if cmd_id = [1, 8] then parseRequestCurrentZoomValueMsg data
  else if cmd_id = [0, 14] then parseSendControlAngleToGimbalMsg data
  else .ignored

/-- Whether one call of `SIYISDK.bufferCallback` on this datagram lets
an exception escape (crashing `recvLoop`): some sliced packet decodes
successfully and its dispatch raises.  (In Python the first raising
dispatch aborts the loop; an exception escapes iff such a packet
exists.) -/
def callbackRaises (crcFn : Hex → Hex) (buff : Hex) : Bool :=
  (scanPackets buff).1.any fun p =>
    match decodeMsg crcFn p with
    | none => false
    | some (data, _, cmd_id, _) => decide (dispatchCmd cmd_id data = .raised)

/-!
## Cached telemetry records and session state (`siyi_sdk.py`)

One structure per message-record class of `siyi_message.py`, with the
class-level sentinel defaults.  Floats are `Rat`, strings are `Hex`.
The enumeration constants (`RecordingMsg.ON`, …) are not needed by any
claim and are omitted.
-/

structure FirmwareMsg where
  seq : Int := 0
  code_board_ver : Hex := []
  gimbal_firmware_ver : Hex := []
  zoom_firmware_ver : Hex := []
  deriving DecidableEq

structure HardwareIDMsg where
  seq : Int := 0
  id : Hex := []
  deriving DecidableEq

structure AutoFocusMsg where
  seq : Int := 0
  success : Bool := false
  deriving DecidableEq

structure ManualZoomMsg where
  seq : Int := 0
  level : Rat := -1
  deriving DecidableEq

structure CurrentZoomValueMsg where
  seq : Int := 0
  zoom_int : Int := -1
  zoom_float : Rat := -1
  deriving DecidableEq

structure AbsoluteZoomMsg where
  seq : Int := 0
  success : Int := -1
  deriving DecidableEq

structure ManualFocusMsg where
  seq : Int := 0
  success : Bool := false
  deriving DecidableEq

structure GimbalSpeedMsg where
  seq : Int := 0
  success : Bool := false
  deriving DecidableEq

structure CenterMsg where
  seq : Int := 0
  success : Bool := false
  deriving DecidableEq

structure RecordingMsg where
  seq : Int := 0
  state : Int := -1
  deriving DecidableEq

structure MountDirMsg where
  seq : Int := 0
  dir : Int := -1
  deriving DecidableEq

structure MotionModeMsg where
  seq : Int := 0
  mode : Int := -1
  deriving DecidableEq

structure FuncFeedbackInfoMsg where
  seq : Int := 0
  info_type : Option Int := none
  deriving DecidableEq

structure AttitdueMsg where
  seq : Int := 0
  stamp : Int := 0
  yaw : Rat := 0
  pitch : Rat := 0
  roll : Rat := 0
  yaw_speed : Rat := 0
  pitch_speed : Rat := 0
  roll_speed : Rat := 0
  deriving DecidableEq

structure MaxZoomValueMsg where
  seq : Int := 0
  zoom_max_int : Int := 0
  zoom_max_float : Rat := 0
  deriving DecidableEq

structure SendControlAngleToGimbalMsg where
  seq : Int := 0
  yaw : Rat := 0
  pitch : Rat := 0
  current_yaw : Rat := 0
  current_pitch : Rat := 0
  current_roll : Rat := 0
  deriving DecidableEq

/-- The mutable session state of a `SIYISDK` object: the connection
flag, the cooperative stop flag, the cached message records created in
`__init__`, and the two last-seen sequence trackers.  (Sockets, threads
and loop rates carry no decidable state relevant to the claims.)  Note
`_sendControlAngleToGimbal_msg` is created in `__init__` but is not a
cached telemetry record in the spec's sense: no decode-path parser ever
writes it (`parseSendControlAngleToGimbalMsg` writes `_att_msg`), and
`resetVars` does not touch it. -/
structure SIYISDK where
  connected : Bool := false
  stop : Bool := false
  absoluteZoom_msg : AbsoluteZoomMsg := {}
  att_msg : AttitdueMsg := {}
  center_msg : CenterMsg := {}
  currentZoomValue_msg : CurrentZoomValueMsg := {}
  autoFocus_msg : AutoFocusMsg := {}
  gimbalSpeed_msg : GimbalSpeedMsg := {}
  fw_msg : FirmwareMsg := {}
  funcFeedback_msg : FuncFeedbackInfoMsg := {}
  hw_msg : HardwareIDMsg := {}
  manualFocus_msg : ManualFocusMsg := {}
  manualZoom_msg : ManualZoomMsg := {}
  maxZoomValue_msg : MaxZoomValueMsg := {}
  motionMode_msg : MotionModeMsg := {}
  mountDir_msg : MountDirMsg := {}
  record_msg : RecordingMsg := {}
  sendControlAngleToGimbal_msg : SendControlAngleToGimbalMsg := {}
  last_att_seq : Int := -1
  last_fw_seq : Int := 0
  deriving DecidableEq

/-- `SIYISDK.resetVars`: clears the connection flag and replaces each
of the fifteen cached telemetry records with a freshly constructed
(sentinel) instance.  (It returns `True` in the source; the value is
never used.) -/
def resetVars (s : SIYISDK) : SIYISDK :=
  { s with
    connected := false
    absoluteZoom_msg := {}
    att_msg := {}
    center_msg := {}
    currentZoomValue_msg := {}
    autoFocus_msg := {}
    gimbalSpeed_msg := {}
    fw_msg := {}
    funcFeedback_msg := {}
    hw_msg := {}
    manualFocus_msg := {}
    manualZoom_msg := {}
    maxZoomValue_msg := {}
    motionMode_msg := {}
    mountDir_msg := {}
    record_msg := {} }

/-- `SIYISDK.disconnect`: sets the stop flag, then `resetVars`. -/
def disconnect (s : SIYISDK) : SIYISDK :=
  resetVars { s with stop := true }

/-!
## Rotation controller (`SIYISDK.setGimbalRotation`)
-/

/-- What `setGimbalRotation` does before (instead of) entering its
control loop. -/
inductive RotAction where
  /-- Out-of-range target: log an error and return (no command sent,
  loop not entered). -/
  | reject
  /-- Target (0,0): send a single center-gimbal command and return. -/
  | center
  /-- Otherwise: enter the closed-loop control loop. -/
  | ctrlLoop
  deriving DecidableEq

/-- The pre-loop dispatch of `SIYISDK.setGimbalRotation`: pitch outside
[-90, 25] or yaw outside [-270, 270] is rejected; the exact target
(0, 0) is centered directly. -/
def setGimbalRotationAction (yaw pitch : Rat) : RotAction :=
  if 25 < pitch ∨ pitch < -90 then .reject
  else if 270 < yaw ∨ yaw < -270 then .reject
  else if yaw = 0 ∧ pitch = 0 then .center
  else .ctrlLoop

/-- The attitude-related state read by one iteration of
`setGimbalRotation`'s loop: the cached attitude record's sequence and
angles, and the controller's `_last_att_seq`. -/
structure CtrlState where
  attSeq : Int
  attYaw : Rat
  attPitch : Rat
  lastAttSeq : Int
  deriving DecidableEq

/-- Observable effect of one loop iteration. -/
structure CtrlStep where
  /-- The (yaw, pitch) speed setpoint sent via `requestGimbalSpeed`. -/
  speedCmd : Int × Int
  /-- The value of `_last_att_seq` after the iteration. -/
  newLastAttSeq : Int
  /-- Whether the loop `break`s (goal reached). -/
  done : Bool
  deriving DecidableEq

/-- One iteration of the `while True` loop of
`SIYISDK.setGimbalRotation` (after the `requestGimbalAttitude` send,
whose response arrives asynchronously): the stale-sequence guard, then
`_last_att_seq` update, error computation with the source's reversed
yaw sign, threshold check, and clamped proportional speed setpoints
(`max(min(100, int(gain*err)), -100)`). -/
def gimbalStep (yaw pitch th gain : Rat) (s : CtrlState) : CtrlStep :=
  if s.attSeq = s.lastAttSeq then
    { speedCmd := (0, 0), newLastAttSeq := s.lastAttSeq, done := false }
  else
    let yaw_err := -yaw + s.attYaw
    let pitch_err := pitch - s.attPitch
    if |yaw_err| ≤ th ∧ |pitch_err| ≤ th then
      { speedCmd := (0, 0), newLastAttSeq := s.attSeq, done := true }
    else
      { speedCmd :=
          (max (min 100 (pyInt (gain * yaw_err))) (-100),
            max (min 100 (pyInt (gain * pitch_err))) (-100)),
        newLastAttSeq := s.attSeq,
        done := false }

/-!
## Concrete inputs used by counterexamples and witnesses
-/

/-- A 20-character buffer with a valid header and a declared payload
length of 5 bytes (so the full frame would need 30 characters): a
partial frame. -/
def partialBuf : Hex :=
  [5, 5, 6, 6, 0, 1, 0, 5, 0, 0, 0, 0, 0, 0, 0, 4, 0, 0, 0, 0]

/-- A 24-character buffer with a valid header and a declared payload
length of 3 bytes (needing 26 characters): another partial frame. -/
def partialBuf2 : Hex :=
  [5, 5, 6, 6, 0, 1, 0, 3, 0, 0, 0, 0, 0, 0, 0, 4, 0, 1, 0, 2, 0, 0, 3, 4]

/-- A valid one-payload-byte frame produced by the codec itself
(payload `"01"`, command id `"04"`, checksum from `crcConst`). -/
def goodFrame : Hex := (encodeMsg crcConst 0 [0, 1] [0, 4]).1

/-- Garbage prefix: the three bytes `e5 56 6e`.  No byte-aligned window
equals the header marker `5566`, but the nibble string contains `5566`
at (odd) offset 1. -/
def nibbleGarbage : Hex := [14, 5, 5, 6, 6, 14]

/-- A valid empty-payload frame with command id `"0c"`
(PHOTO_AND_RECORD), produced by the codec itself. -/
def photoFrame : Hex := (encodeMsg crcConst 0 [] [0, 12]).1

/-!
## Helper lemmas
-/

lemma hexNat_zero_cons (s : Hex) : hexNat (0 :: s) = hexNat s := by
  simp [hexNat]

lemma hexNat_append_digit (s : Hex) (d : Nat) :
    hexNat (s ++ [d]) = 16 * hexNat s + d := by
  simp [hexNat, List.foldl_append]

lemma hexNat_natToHexAux (fuel n : Nat) (h : n < fuel) :
    hexNat (natToHexAux fuel n) = n := by
  induction fuel generalizing n with
  | zero => omega
  | succ fuel ih =>
    by_cases h16 : n < 16
    · simp [natToHexAux, h16, hexNat]
    · have hdiv : n / 16 < fuel := by
        have := Nat.div_lt_self (by omega : 0 < n) (by norm_num : 1 < 16)
        omega
      simp only [natToHexAux, h16, if_false]
      rw [hexNat_append_digit, ih _ hdiv]
      omega

lemma hexNat_natToHex (n : Nat) : hexNat (natToHex n) = n :=
  hexNat_natToHexAux (n + 1) n (Nat.lt_succ_self n)

lemma hexNat_toHex (intval : Int) (nbits : Nat) :
    hexNat (toHex intval nbits) =
      ((intval + (2 : Int) ^ nbits) % (2 : Int) ^ nbits).toNat := by
  simp only [toHex]
  split_ifs <;>
    simp [hexNat_zero_cons, hexNat_natToHex]

lemma testBit15_false_of_lt {n : Nat} (h : n < 32768) :
    Nat.testBit n 15 = false := by
  rw [Nat.testBit_to_div_mod]
  norm_num
  omega

lemma testBit15_true_of_ge {n : Nat} (h1 : 32768 ≤ n) (h2 : n < 65536) :
    Nat.testBit n 15 = true := by
  rw [Nat.testBit_to_div_mod]
  norm_num
  omega

lemma scanPacketsGo_nil (fuel : Nat) : scanPacketsGo fuel [] = ([], []) := by
  cases fuel <;> rfl

/-- On a header mismatch, one iteration of the scan drops exactly one
leading character. -/
lemma scanPacketsGo_drop_step (fuel : Nat) (buff : Hex)
    (h20 : ¬ buff.length < 20) (hh : pySlice buff 0 4 ≠ [5, 5, 6, 6]) :
    scanPacketsGo (fuel + 1) buff = scanPacketsGo fuel (buff.drop 1) := by
  simp only [scanPacketsGo]
  rw [if_neg h20, if_neg hh]

/-- Resynchronization at the `scanPacketsGo` level: garbage whose
character-level scan never produces a spurious header window before the
frame start is dropped one character at a time, after which the single
complete frame is sliced out whole. -/
lemma scanPacketsGo_resync (fuel : Nat) :
    ∀ g F : Hex, (g ++ F).length < fuel →
      F.take 4 = [5, 5, 6, 6] →
      F.length = 20 + hexNat (pySlice F 8 10 ++ pySlice F 6 8) * 2 →
      (∀ i < g.length, ((g ++ F).drop i).take 4 ≠ [5, 5, 6, 6]) →
      scanPacketsGo fuel (g ++ F) = ([F], []) := by
  induction fuel with
  | zero =>
    intro g F hfuel _ _ _
    omega
  | succ fuel ih =>
    intro g F hfuel hF4 hlen hg
    match g with
    | [] =>
      simp only [List.nil_append] at hfuel hg ⊢
      have h20 : ¬ F.length < 20 := by omega
      have hps : pySlice F 0 4 = [5, 5, 6, 6] := by
        simpa [pySlice] using hF4
      simp only [scanPacketsGo]
      rw [if_neg h20, if_pos hps]
      rw [if_neg (by omega)]
      have htake : F.take (20 + hexNat (pySlice F 8 10 ++ pySlice F 6 8) * 2)
          = F := by
        rw [← hlen]
        exact List.take_length F
      have hdrop : F.drop (20 + hexNat (pySlice F 8 10 ++ pySlice F 6 8) * 2)
          = [] := by
        rw [← hlen]
        exact List.drop_length F
      rw [htake, hdrop, scanPacketsGo_nil]
    | a :: g' =>
      have hFlen : 20 ≤ F.length := by omega
      have h20 : ¬ ((a :: g') ++ F).length < 20 := by
        simp only [List.cons_append, List.length_cons, List.length_append]
        omega
      have hh : pySlice ((a :: g') ++ F) 0 4 ≠ [5, 5, 6, 6] := by
        have h0 := hg 0 (by simp)
        simpa [pySlice] using h0
      rw [show (fuel + 1) = fuel + 1 from rfl,
        scanPacketsGo_drop_step fuel _ h20 hh]
      have hd : ((a :: g') ++ F).drop 1 = g' ++ F := by simp
      rw [hd]
      refine ih g' F ?_ hF4 hlen ?_
      · simp only [List.cons_append, List.length_cons] at hfuel
        simp only [List.length_append] at hfuel ⊢
        omega
      · intro i hi
        have := hg (i + 1) (by simp only [List.length_cons]; omega)
        simpa using this

/-!
## Claim theorems
-/

/-- **C10.** `toInt ∘ toHex · 16` is the identity on the 16-bit
two's-complement range: the encoding produced by `toHex` round-trips
through `toInt`, which always interprets its argument at 16 bits. -/
theorem toInt_toHex_roundtrip (v : Int) (h1 : -32768 ≤ v) (h2 : v ≤ 32767) :
    toInt (toHex v 16) = v := by
  simp only [toInt]
  rw [hexNat_toHex]
  have hpow : (2 : Int) ^ (16 : Nat) = 65536 := by norm_num
  rw [hpow]
  rcases le_or_lt 0 v with hv | hv
  · have hmod : (v + 65536) % 65536 = v := by omega
    rw [hmod]
    have hlt : v.toNat < 32768 := by omega
    rw [testBit15_false_of_lt hlt]
    simp only [Bool.false_eq_true, if_false]
    omega
  · have hmod : (v + 65536) % 65536 = v + 65536 := by omega
    rw [hmod]
    have hge : 32768 ≤ (v + 65536).toNat := by omega
    have hlt : (v + 65536).toNat < 65536 := by omega
    rw [testBit15_true_of_ge hge hlt]
    simp only [if_true]
    omega

/-- Witness for C10 at the concrete input `-5`. -/
theorem toInt_toHex_roundtrip_witness : toInt (toHex (-5) 16) = -5 :=
  toInt_toHex_roundtrip (-5) (by norm_num) (by norm_num)

/-- **C1 (failing input).** `encodeMsg("01", "04")` from counter 0
increments the session counter to 1, but the frame's sequence field is
hard-coded to `"0000"` (the source line assembling the frame with the
real sequence string is immediately overwritten), so `decodeMsg` on the
produced frame yields payload `"01"`, length 1, command id `"04"` — and
sequence 0, not the value 1 the counter was incremented to. -/
theorem encodeMsg_seq_field_hardcoded_zero :
    (encodeMsg crcConst 0 [0, 1] [0, 4]).2 = 1 ∧
      decodeMsg crcConst (encodeMsg crcConst 0 [0, 1] [0, 4]).1 =
        some ([0, 1], 1, [0, 4], 0) :=
  ⟨rfl, rfl⟩

/-- **C3 (counterexample).** `incrementSEQ(65535)` sets the counter to
65536 — not 0, as the claim states — and returns the garbled string
`"0010"` (from the unpadded five-digit `hex(65536)`). -/
theorem incrementSEQ_at_65535_not_zero :
    incrementSEQ 65535 = (65536, [0, 0, 1, 0]) ∧
      (incrementSEQ 65535).1 ≠ 0 :=
  ⟨by decide, by decide⟩

/-- **C3 (amended).** The counter resets to 0 only when `incrementSEQ`
is applied to a value strictly greater than 65535 (so the wrap to 0
happens one call after the counter reaches 65536); from 65535 it yields
65536; and from any non-negative value the new counter is non-negative
(the counter is never driven negative). -/
theorem incrementSEQ_wrap_amended :
    (incrementSEQ 65535).1 = 65536 ∧
      ∀ v : Int,
        (65535 < v → (incrementSEQ v).1 = 0) ∧
          (0 ≤ v → 0 ≤ (incrementSEQ v).1) := by
  refine ⟨by decide, fun v => ⟨fun h => ?_, fun h => ?_⟩⟩
  · simp [incrementSEQ, h]
  · unfold incrementSEQ
    split_ifs with hA hB
    · simp
    · omega
    · simp
      omega

/-- Witness for the amended C3 at concrete inputs 70000 and 3. -/
theorem incrementSEQ_wrap_amended_witness :
    (incrementSEQ 70000).1 = 0 ∧ 0 ≤ (incrementSEQ 3).1 :=
  ⟨(incrementSEQ_wrap_amended.2 70000).1 (by norm_num),
    (incrementSEQ_wrap_amended.2 3).2 (by norm_num)⟩

/-- **C2 (counterexample).** A 20-character buffer with a valid header
and a declared payload length of 5 bytes (frame would need 30
characters) yields zero decoded frames — but the buffered data is
discarded (`buff_str = ""`), not left pending as the claim states. -/
theorem bufferCallback_partial_frame_discarded_cex :
    pySlice partialBuf 0 4 = [5, 5, 6, 6] ∧
      partialBuf.length <
        20 + hexNat (pySlice partialBuf 8 10 ++ pySlice partialBuf 6 8) * 2 ∧
      scanPackets partialBuf = ([], []) ∧
      partialBuf ≠ [] := by decide

/-- **C2 (amended).** A buffer that begins with the header marker but
holds fewer characters than header + declared payload + checksum yields
zero decoded frames and the scan *discards* the buffered data: it sets
the buffer to empty and stops (`bufferCallback`'s buffer is a local of
one receive call, so nothing is carried over to the next datagram). -/
theorem bufferCallback_partial_frame_clears (buff : Hex)
    (h1 : 20 ≤ buff.length)
    (h2 : buff.take 4 = [5, 5, 6, 6])
    (h3 : buff.length <
      20 + hexNat (pySlice buff 8 10 ++ pySlice buff 6 8) * 2) :
    scanPackets buff = ([], []) := by
  have hps : pySlice buff 0 4 = [5, 5, 6, 6] := by
    simpa [pySlice] using h2
  simp only [scanPackets, scanPacketsGo]
  rw [if_neg (by omega), if_pos hps, if_pos h3]

/-- Witness for the amended C2 on a concrete 24-character buffer
declaring a 3-byte payload. -/
theorem bufferCallback_partial_frame_clears_witness :
    scanPackets partialBuf2 = ([], []) :=
  bufferCallback_partial_frame_clears partialBuf2 (by decide) (by decide)
    (by decide)

/-- **C5 (counterexample).** `goodFrame` is a valid frame (it decodes,
and alone it is recovered by the scan), and the garbage bytes
`e5 56 6e` contain no byte-aligned header marker; yet scanning
garbage-then-frame yields *zero* frames, the whole buffer being
discarded: dropping single characters (half-bytes, not whole bytes as
the claim states) lands the scan on the spurious `5566` at nibble
offset 1, whose bogus length field then triggers the buffer-clearing
branch. -/
theorem bufferCallback_resync_cex :
    (decodeMsg crcConst goodFrame).isSome = true ∧
      scanPackets goodFrame = ([goodFrame], []) ∧
      (∀ i < 2, pySlice nibbleGarbage (2 * i) (2 * i + 4) ≠ [5, 5, 6, 6]) ∧
      scanPackets (nibbleGarbage ++ goodFrame) = ([], []) := by decide

/-- **C5 (amended).** On a header mismatch the scan drops exactly one
leading hex character (half a byte, `buff_str[1:]`) and retries; and a
buffer of garbage followed by one valid frame yields exactly that one
frame with the garbage discarded, provided no four-character window
starting inside the garbage equals `5566` (in particular the
character-level scan must not hit a spurious header at a half-byte
offset). -/
theorem bufferCallback_resync_amended :
    (∀ buff : Hex, 20 ≤ buff.length → buff.take 4 ≠ [5, 5, 6, 6] →
        scanPackets buff = scanPackets (buff.drop 1)) ∧
      ∀ g F : Hex, F.take 4 = [5, 5, 6, 6] →
        F.length = 20 + hexNat (pySlice F 8 10 ++ pySlice F 6 8) * 2 →
        (∀ i < g.length, ((g ++ F).drop i).take 4 ≠ [5, 5, 6, 6]) →
        scanPackets (g ++ F) = ([F], []) := by
  constructor
  · intro buff h20 hh
    have hdl : (buff.drop 1).length + 1 = buff.length := by
      simp only [List.length_drop]
      omega
    simp only [scanPackets]
    rw [scanPacketsGo_drop_step buff.length buff (by omega)
      (by simpa [pySlice] using hh), hdl]
  · intro g F hF4 hlen hg
    simp only [scanPackets]
    exact scanPacketsGo_resync _ g F (Nat.lt_succ_self _) hF4 hlen hg

/-- Witness for the amended C5: a one-byte garbage prefix `00` before
`goodFrame` is dropped character by character and the frame recovered;
and a header-mismatch step drops one character. -/
theorem bufferCallback_resync_amended_witness :
    scanPackets ([0, 0] ++ goodFrame) = ([goodFrame], []) ∧
      scanPackets ([0, 0] ++ goodFrame) =
        scanPackets (([0, 0] ++ goodFrame).drop 1) :=
  ⟨bufferCallback_resync_amended.2 [0, 0] goodFrame (by decide) (by decide)
      (by decide),
    bufferCallback_resync_amended.1 ([0, 0] ++ goodFrame) (by decide)
      (by decide)⟩

/-- **C6 (failing input).** `absoluteZoomMsg(5, 12)`: the fractional
part 12 is *not* clamped into [0, 9] — the two fractional-range guards
assign `zoom_level` instead, so the payload becomes `"090c"` (integer
part overwritten to 9, fractional part 12 encoded as-is) rather than
the claimed `"0509"`.  For contrast, the parts of the claim the code
does satisfy: the integer zoom part is clamped (45 encodes 30,
`"1e.."`), and `gimbalSpeedMsg` clamps 150 to 100 (`"64"`). -/
theorem absoluteZoom_frac_clamp_broken :
    absoluteZoomData 5 12 = [0, 9, 0, 12] ∧
      absoluteZoomData 45 3 = [1, 14, 0, 3] ∧
      gimbalSpeedData 150 0 = [6, 4, 0, 0] := by decide

/-- Helper: a parser of the shape `try: ...int conversions...; return
True / except: return False` never lets an exception escape. -/
lemma tryOk_ne_raised {α : Type} (o : Option α) :
    tryOk o ≠ ParseOutcome.raised := by
  cases o <;> simp [tryOk]

/-- **C4 (counterexample).** A valid empty-payload frame with command
id `"0c"` (PHOTO_AND_RECORD) makes `bufferCallback` raise: the packet
is sliced and decoded successfully, and `parsePhotoAndRecordMsg`
executes `raise NotImplemented` outside any `try`, so the exception
escapes `bufferCallback` (crashing `recvLoop`), contrary to the
claim. -/
theorem bufferCallback_raises_on_photo_frame_cex :
    callbackRaises crcConst photoFrame = true := by decide

/-- **C4 (amended).** The per-frame dispatch of `bufferCallback` lets
an exception escape exactly for command ids `"0c"` (PHOTO_AND_RECORD)
and `"19"` (REQUEST_GIMBAL_CAMERA_PRESENT_WORKING_MODE), whose parsers
unconditionally raise; for every other command id (implemented parsers
with their `try/except`, and unknown ids which are only logged) no
decode exception propagates out of `bufferCallback`. -/
theorem dispatchCmd_raises_iff (cmd_id data : Hex) :
    dispatchCmd cmd_id data = ParseOutcome.raised ↔
      (cmd_id = [0, 12] ∨ cmd_id = [1, 9]) := by
  by_cases e1 : cmd_id = [0, 15]
  · subst e1; exact iff_of_false (tryOk_ne_raised _) (by decide)
  by_cases e2 : cmd_id = [0, 4]
  · subst e2; exact iff_of_false (tryOk_ne_raised _) (by decide)
  by_cases e3 : cmd_id = [0, 8]
  · subst e3; exact iff_of_false (tryOk_ne_raised _) (by decide)
  by_cases e4 : cmd_id = [0, 11]
  · subst e4; exact iff_of_false (tryOk_ne_raised _) (by decide)
  by_cases e5 : cmd_id = [0, 7]
  · subst e5; exact iff_of_false (tryOk_ne_raised _) (by decide)
  by_cases e6 : cmd_id = [0, 6]
  · subst e6; exact iff_of_false (tryOk_ne_raised _) (by decide)
  by_cases e7 : cmd_id = [0, 5]
  · subst e7; exact iff_of_false (tryOk_ne_raised _) (by decide)
  by_cases e8 : cmd_id = [0, 12]
  · subst e8; exact iff_of_true rfl (Or.inl rfl)
  by_cases e9 : cmd_id = [0, 13]
  · subst e9; exact iff_of_false (tryOk_ne_raised _) (by decide)
  by_cases e10 : cmd_id = [0, 1]
  · subst e10; exact iff_of_false (fun hc => nomatch hc) (by decide)
  by_cases e11 : cmd_id = [0, 2]
  · subst e11; exact iff_of_false (fun hc => nomatch hc) (by decide)
  by_cases e12 : cmd_id = [1, 9]
  · subst e12; exact iff_of_true rfl (Or.inr rfl)
  by_cases e13 : cmd_id = [0, 10]
  · subst e13; exact iff_of_false (tryOk_ne_raised _) (by decide)
  by_cases e14 : cmd_id = [1, 6]
  · subst e14; exact iff_of_false (tryOk_ne_raised _) (by decide)
  by_cases e15 : cmd_id = [1, 8]
  · subst e15; exact iff_of_false (tryOk_ne_raised _) (by decide)
  by_cases e16 : cmd_id = [0, 14]
  · subst e16; exact iff_of_false (tryOk_ne_raised _) (by decide)
  have hd : dispatchCmd cmd_id data = ParseOutcome.ignored := by
    unfold dispatchCmd
    rw [if_neg e1, if_neg e2, if_neg e3, if_neg e4, if_neg e5, if_neg e6,
      if_neg e7, if_neg e8, if_neg e9, if_neg e10, if_neg e11, if_neg e12,
      if_neg e13, if_neg e14, if_neg e15, if_neg e16]
  rw [hd]
  exact iff_of_false (by decide) (fun h => h.elim e8 e12)

/-- Witness for the amended C4 at the concrete command id `"0c"` with
empty payload. -/
theorem dispatchCmd_raises_iff_witness :
    dispatchCmd [0, 12] [] = ParseOutcome.raised :=
  (dispatchCmd_raises_iff [0, 12] []).mpr (Or.inl rfl)

/-- **C7.** `disconnect` sets the stop flag and resets every cached
telemetry record (the fifteen decode-path records enumerated by the
spec) to its sentinel construction-time state, and it is idempotent:
a second call leaves the session state unchanged. -/
theorem disconnect_resets_and_idempotent (s : SIYISDK) :
    (disconnect s).stop = true ∧
      (disconnect s).connected = false ∧
      (disconnect s).absoluteZoom_msg = {} ∧
      (disconnect s).att_msg = {} ∧
      (disconnect s).center_msg = {} ∧
      (disconnect s).currentZoomValue_msg = {} ∧
      (disconnect s).autoFocus_msg = {} ∧
      (disconnect s).gimbalSpeed_msg = {} ∧
      (disconnect s).fw_msg = {} ∧
      (disconnect s).funcFeedback_msg = {} ∧
      (disconnect s).hw_msg = {} ∧
      (disconnect s).manualFocus_msg = {} ∧
      (disconnect s).manualZoom_msg = {} ∧
      (disconnect s).maxZoomValue_msg = {} ∧
      (disconnect s).motionMode_msg = {} ∧
      (disconnect s).mountDir_msg = {} ∧
      (disconnect s).record_msg = {} ∧
      disconnect (disconnect s) = disconnect s :=
  ⟨rfl, rfl, rfl, rfl, rfl, rfl, rfl, rfl, rfl, rfl, rfl, rfl, rfl, rfl,
    rfl, rfl, rfl, rfl⟩

/-- **C8.** In any iteration of `setGimbalRotation`'s loop in which the
cached attitude sequence has not advanced past `_last_att_seq`, the
controller sends the zero speed setpoint `(0, 0)`, leaves
`_last_att_seq` unchanged, and does not terminate the loop — no errors
are computed and no nonzero speed is sent. -/
theorem gimbalStep_stale_zero_speed (yaw pitch th gain : Rat)
    (s : CtrlState) (h : s.attSeq = s.lastAttSeq) :
    gimbalStep yaw pitch th gain s =
      { speedCmd := (0, 0), newLastAttSeq := s.lastAttSeq, done := false } := by
  unfold gimbalStep
  rw [if_pos h]

/-- Witness for C8 at a concrete stale state (sequence 7 on both
sides). -/
theorem gimbalStep_stale_zero_speed_witness :
    gimbalStep 10 5 1 4 ⟨7, 0, 0, 7⟩ =
      { speedCmd := (0, 0), newLastAttSeq := 7, done := false } :=
  gimbalStep_stale_zero_speed 10 5 1 4 ⟨7, 0, 0, 7⟩ rfl

/-- **C9.** `setGimbalRotation` rejects every target with pitch outside
[-90, 25] or yaw outside [-270, 270] before sending anything or
entering the loop, and for the exact target (0, 0) it issues a single
center-gimbal command instead of the closed-loop control loop. -/
theorem setGimbalRotation_range_and_center (yaw pitch : Rat) :
    ((25 < pitch ∨ pitch < -90 ∨ 270 < yaw ∨ yaw < -270) →
        setGimbalRotationAction yaw pitch = RotAction.reject) ∧
      (yaw = 0 ∧ pitch = 0 →
        setGimbalRotationAction yaw pitch = RotAction.center) := by
  constructor
  · intro h
    unfold setGimbalRotationAction
    by_cases h1 : 25 < pitch ∨ pitch < -90
    · rw [if_pos h1]
    · have h2 : 270 < yaw ∨ yaw < -270 := by tauto
      rw [if_neg h1, if_pos h2]
  · rintro ⟨hy, hp⟩
    unfold setGimbalRotationAction
    subst hy hp
    norm_num

/-- Witness for C9 at the concrete targets (0, 30) (rejected) and
(0, 0) (centered). -/
theorem setGimbalRotation_range_and_center_witness :
    setGimbalRotationAction 0 30 = RotAction.reject ∧
      setGimbalRotationAction 0 0 = RotAction.center :=
  ⟨(setGimbalRotation_range_and_center 0 30).1 (Or.inl (by norm_num)),
    (setGimbalRotation_range_and_center 0 0).2 ⟨rfl, rfl⟩⟩

end Siyi
